import Mathlib

/-!
Verification development for the Gerbot voice bot core.

Shallow embedding of the Rust sources:
  * src/serde.rs            (ISO-8601 duration and bool-string codecs)
  * src/youtube/yt_api.rs   (YtApiClient: rate limiting, API response dispatch)
  * src/youtube/mod.rs      (YoutubeClient wrapper)
  * src/music_commands.rs   (join_voice arbitration, URL id extraction,
                             skip and stop command queue handling)

Machine integers are modelled as Nat with explicit reduction modulo 2^32
where the Rust code computes in u32.  Stateful code is modelled by explicit
state passing; the async interleaving relevant to the join arbitration is
modelled as a small-step relation.
-/

namespace Gerbot

/-! ## src/serde.rs, module iso_duration -/

/-- Embeds iso_duration::serialize from src/serde.rs.  The Rust code computes
hours, minutes and leftover seconds from the total seconds of the Duration and
appends, for each nonzero component, the format string "H{}", "M{}" or "S{}"
applied to the component (so the unit letter is emitted before the digits,
exactly as the source does). -/
def iso_duration_serialize (totalSecs : Nat) : String :=
  let hours := totalSecs / 3600
  let secs1 := totalSecs - hours * 3600
  let mins := secs1 / 60
  let secs2 := secs1 - mins * 60
  let s0 := "PT"
  let s1 := if hours > 0 then s0 ++ "H" ++ toString hours else s0
  let s2 := if mins > 0 then s1 ++ "M" ++ toString mins else s1
  if secs2 > 0 then s2 ++ "S" ++ toString secs2 else s2

/-- Embeds the split_once call of ISODurationVisitor::visit_str: drop
everything up to and including the first occurrence of the substring "PT",
returning none when "PT" does not occur. -/
def dropAfterPT : List Char → Option (List Char)
  | [] => none
  | 'P' :: 'T' :: rest => some rest
  | _ :: rest => dropAfterPT rest

/-- Embeds the character loop of ISODurationVisitor::visit_str.  The running
value is a u32 (reduced mod 2^32); unit letters flush the value into the
accumulated duration (in seconds), every other character is skipped. -/
def parseDurationChars : List Char → Nat → Nat → Nat
  | [], _, dur => dur
  | c :: rest, val, dur =>
    if c.isDigit then
      parseDurationChars rest ((val * 10 + (c.toNat - 48)) % 4294967296) dur
    else if c = 'H' then parseDurationChars rest 0 (dur + 3600 * val % 4294967296)
    else if c = 'M' then parseDurationChars rest 0 (dur + 60 * val % 4294967296)
    else if c = 'S' then parseDurationChars rest 0 (dur + val)
    else parseDurationChars rest val dur

/-- Embeds ISODurationVisitor::visit_str from src/serde.rs: the deserializer
for the compact ISO-8601 duration subset, returning the parsed duration in
seconds or a deserialization error message. -/
def visit_str (v : String) : Except String Nat :=
  match dropAfterPT v.data with
  | none => Except.error "no duration specified (does not contain 'PT')"
  | some rest => Except.ok (parseDurationChars rest 0 0)

/-! ## src/youtube/mod.rs and src/youtube/yt_api.rs: data model -/

/-- Embeds the YtApiError enum of src/youtube/mod.rs. -/
inductive YtApiError
  | Request
  | Api
  | InvalidId
  | QuotaExceeded
  deriving DecidableEq, Repr

/-- Embeds the YtResourceId enum of src/youtube/mod.rs. -/
inductive YtResourceId
  | Video (id : String)
  | Playlist (id : String)
  | Channel (id : String)
  deriving DecidableEq, Repr

/-- Embeds the YtThumbnailSize enum of src/youtube/yt_api.rs (module models). -/
inductive YtThumbnailSize
  | Default
  | Medium
  | High
  | Standard
  | Maxres
  deriving DecidableEq, Repr

/-- Embeds the YtThumbnailInfo struct of src/youtube/yt_api.rs (module models). -/
structure YtThumbnailInfo where
  url : String
  width : Nat
  height : Nat
  deriving DecidableEq, Repr

/-- Embeds the YtLiveBroadcastContent enum of src/youtube/yt_api.rs. -/
inductive YtLiveBroadcastContent
  | None
  | Live
  | Upcoming
  deriving DecidableEq, Repr

/-- Embeds the internal YtResource struct of src/youtube/mod.rs.  The
OffsetDateTime published_at is modelled as an Int timestamp and the thumbnail
HashMap as an association list. -/
structure YtResource where
  id : YtResourceId
  title : String
  description : String
  published_at : Int
  channel_id : String
  channel_title : String
  thumbnails : List (YtThumbnailSize × YtThumbnailInfo)
  deriving DecidableEq, Repr

/-- Embeds the internal YtVideo struct of src/youtube/mod.rs.  The Duration is
modelled as whole seconds. -/
structure YtVideo where
  id : String
  title : String
  description : String
  duration : Nat
  published_at : Int
  channel_id : String
  channel_title : String
  thumbnails : List (YtThumbnailSize × YtThumbnailInfo)
  live_status : YtLiveBroadcastContent
  deriving DecidableEq, Repr

/-- Embeds the internal YtPlaylist struct of src/youtube/mod.rs. -/
structure YtPlaylist where
  id : String
  title : String
  description : String
  published_at : Int
  channel_id : String
  channel_title : String
  thumbnails : List (YtThumbnailSize × YtThumbnailInfo)
  videos : List YtResource
  deriving DecidableEq, Repr

namespace models

/-- Embeds models::YtVideoSnippet of src/youtube/yt_api.rs. -/
structure YtVideoSnippet where
  published_at : Int
  channel_id : String
  title : String
  description : String
  thumbnails : List (YtThumbnailSize × YtThumbnailInfo)
  channel_title : String
  tags : List String
  category_id : String
  live_broadcast_content : YtLiveBroadcastContent
  deriving DecidableEq, Repr

/-- Embeds models::YtVideoDimension of src/youtube/yt_api.rs. -/
inductive YtVideoDimension
  | TwoD
  | ThreeD
  deriving DecidableEq, Repr

/-- Embeds models::YtVideoDefinition of src/youtube/yt_api.rs. -/
inductive YtVideoDefinition
  | SD
  | HD
  deriving DecidableEq, Repr

/-- Embeds models::YtVideoRegionRestriction of src/youtube/yt_api.rs. -/
structure YtVideoRegionRestriction where
  allowed : List String
  blocked : List String
  deriving DecidableEq, Repr

/-- Embeds models::YtVideoProjection of src/youtube/yt_api.rs. -/
inductive YtVideoProjection
  | Rectangular
  | ThreeSixty
  deriving DecidableEq, Repr

/-- Embeds models::YtVideoContentDetails of src/youtube/yt_api.rs; the
iso_duration-coded Duration is modelled as whole seconds, the bool_string
coded caption field as Bool. -/
structure YtVideoContentDetails where
  duration : Nat
  dimension : YtVideoDimension
  definition : YtVideoDefinition
  caption : Bool
  licensed_content : Bool
  region_restriction : Option YtVideoRegionRestriction
  projection : YtVideoProjection
  deriving DecidableEq, Repr

/-- Embeds models::YtVideo of src/youtube/yt_api.rs (the JSON payload shape
of one item of a videos.list response). -/
structure YtVideo where
  etag : String
  id : String
  snippet : YtVideoSnippet
  content_details : YtVideoContentDetails
  deriving DecidableEq, Repr

/-- Embeds models::YtListPageInfo of src/youtube/yt_api.rs. -/
structure YtListPageInfo where
  total_results : Nat
  results_per_page : Nat
  deriving DecidableEq, Repr

/-- Embeds models::YtList of src/youtube/yt_api.rs. -/
structure YtList (α : Type) where
  etag : String
  next_page_token : Option String
  prev_page_token : Option String
  page_info : YtListPageInfo
  items : List α
  deriving DecidableEq, Repr

end models

/-- Embeds the From of models::YtVideo for the internal YtVideo
(src/youtube/yt_api.rs): the deserialized payload is mapped into the internal
model field by field. -/
def YtVideo.from_models (value : models.YtVideo) : YtVideo :=
  { id := value.id
    title := value.snippet.title
    description := value.snippet.description
    duration := value.content_details.duration
    published_at := value.snippet.published_at
    channel_id := value.snippet.channel_id
    channel_title := value.snippet.channel_title
    thumbnails := value.snippet.thumbnails
    live_status := value.snippet.live_broadcast_content }

/-! ## src/youtube/yt_api.rs: YtApiClient state and rate limiting -/

/-- Embeds the YtApiClient struct of src/youtube/yt_api.rs: the HTTP client
handle is irrelevant to the embedded logic, the rate_limited_day RwLock
content is the Option of a Julian day number (i32, modelled as Int). -/
structure YtApiClient where
  yt_api_key : String
  rate_limited_day : Option Int
  deriving DecidableEq, Repr

/-- Embeds YtApiClient::new of src/youtube/yt_api.rs. -/
def YtApiClient.new (yt_api_key : String) : YtApiClient :=
  { yt_api_key := yt_api_key, rate_limited_day := none }

/-- Embeds YtApiClient::is_ratelimited of src/youtube/yt_api.rs.  today is
the Julian day number of the current UTC date.  Returns the boolean result
together with the client state after the call (the call clears the marker
when the marked day is strictly before today). -/
def YtApiClient.is_ratelimited (c : YtApiClient) (today : Int) : Bool × YtApiClient :=
  match c.rate_limited_day with
  | some day =>
    if day < today then (false, { c with rate_limited_day := none })
    else (true, c)
  | none => (false, c)

/-- Embeds the assignment performed in the FORBIDDEN branch of
YtApiClient::process_api_response: the marker is set to the Julian day of the
current UTC date. -/
def YtApiClient.mark_exhausted (c : YtApiClient) (today : Int) : YtApiClient :=
  { c with rate_limited_day := some today }

/-- Models an upstream HTTP response: its status code, and the result of
deserializing its body as the payload type (none when deserialization fails,
in which case reqwest yields a transport error). -/
structure HttpResponse (α : Type) where
  status : Nat
  parsed : Option α

/-- Embeds YtApiClient::process_api_response of src/youtube/yt_api.rs:
status 200 deserializes the body (a body that fails to deserialize surfaces
as YtApiError::Request through the question-mark operator), status 403 sets
the rate-limit marker to today and fails with QuotaExceeded, every other
status fails with the generic YtApiError::Api. -/
def YtApiClient.process_api_response (c : YtApiClient) (today : Int)
    (response : HttpResponse α) : Except YtApiError α × YtApiClient :=
  if response.status = 200 then
    match response.parsed with
    | some v => (Except.ok v, c)
    | none => (Except.error YtApiError.Request, c)
  else if response.status = 403 then
    (Except.error YtApiError.QuotaExceeded, c.mark_exhausted today)
  else
    (Except.error YtApiError.Api, c)

/-- Embeds the result handling of YtApiClient::get_video of
src/youtube/yt_api.rs: the videos.list response is processed, then the first
item of the list is mapped into the internal YtVideo model, an empty item
list meaning the id was invalid. -/
def YtApiClient.get_video_process (c : YtApiClient) (today : Int)
    (response : HttpResponse (models.YtList models.YtVideo)) :
    Except YtApiError YtVideo × YtApiClient :=
  let r := c.process_api_response today response
  (r.1.bind fun list =>
    match list.items with
    | [] => Except.error YtApiError.InvalidId
    | item :: _ => Except.ok (YtVideo.from_models item), r.2)

/-! ## src/youtube/mod.rs: YoutubeClient wrapper -/

/-- Embeds the YoutubeClient struct of src/youtube/mod.rs: an optional inner
YtApiClient, present exactly when an API key was supplied. -/
structure YoutubeClient where
  yt_api_client : Option YtApiClient
  deriving DecidableEq, Repr

/-- Embeds YoutubeClient::new of src/youtube/mod.rs: the inner client is
created by mapping over the optional API key. -/
def YoutubeClient.new (yt_api_key : Option String) : YoutubeClient :=
  { yt_api_client := yt_api_key.map fun key => YtApiClient.new key }

/-- Embeds YoutubeClient::search of src/youtube/mod.rs.  The inner
YtApiClient::search network call is abstracted by the api_search oracle; the
returned Bool records whether that call (an HTTP request) was made.  The
match mirrors the source: the first arm requires an inner client whose
is_ratelimited guard returns false, every other case falls to QuotaExceeded
with no request. -/
def YoutubeClient.search (cl : YoutubeClient) (today : Int)
    (api_search : YtApiClient → Except YtApiError (List YtResource) × YtApiClient) :
    Bool × Except YtApiError (List YtResource) × YoutubeClient :=
  match cl.yt_api_client with
  | some c =>
    let g := c.is_ratelimited today
    if g.1 then (false, Except.error YtApiError.QuotaExceeded, { yt_api_client := some g.2 })
    else
      let r := api_search g.2
      (true, r.1, { yt_api_client := some r.2 })
  | none => (false, Except.error YtApiError.QuotaExceeded, cl)

/-- Embeds YoutubeClient::get_video of src/youtube/mod.rs, with the inner
YtApiClient::get_video call abstracted by the api_get_video oracle; the
returned Bool records whether that call was made. -/
def YoutubeClient.get_video (cl : YoutubeClient) (today : Int)
    (api_get_video : YtApiClient → Except YtApiError YtVideo × YtApiClient) :
    Bool × Except YtApiError YtVideo × YoutubeClient :=
  match cl.yt_api_client with
  | some c =>
    let g := c.is_ratelimited today
    if g.1 then (false, Except.error YtApiError.QuotaExceeded, { yt_api_client := some g.2 })
    else
      let r := api_get_video g.2
      (true, r.1, { yt_api_client := some r.2 })
  | none => (false, Except.error YtApiError.QuotaExceeded, cl)

/-- Embeds YoutubeClient::get_playlist of src/youtube/mod.rs, with the inner
YtApiClient::get_playlist call abstracted by the api_get_playlist oracle; the
returned Bool records whether that call was made. -/
def YoutubeClient.get_playlist (cl : YoutubeClient) (today : Int)
    (api_get_playlist : YtApiClient → Except YtApiError YtPlaylist × YtApiClient) :
    Bool × Except YtApiError YtPlaylist × YoutubeClient :=
  match cl.yt_api_client with
  | some c =>
    let g := c.is_ratelimited today
    if g.1 then (false, Except.error YtApiError.QuotaExceeded, { yt_api_client := some g.2 })
    else
      let r := api_get_playlist g.2
      (true, r.1, { yt_api_client := some r.2 })
  | none => (false, Except.error YtApiError.QuotaExceeded, cl)

/-! ## src/music_commands.rs: join_voice arbitration -/

/-- Embeds the JoinVoiceError enum of src/music_commands.rs (the wrapped
songbird JoinError payload is irrelevant to the arbitration logic). -/
inductive JoinVoiceError
  | Join
  | Occupied
  deriving DecidableEq, Repr

/-- Identity of the voice handle returned by join_voice: the existing call of
the guild returned unchanged, or the handle produced by songbird.join. -/
inductive VoiceHandle
  | existing
  | fresh
  deriving DecidableEq, Repr

/-- Embeds join_voice of src/music_commands.rs for one sequential call.  The
songbird per-guild state is Option (Option Nat): whether songbird.get returns
a call for the guild, and that call's current_channel.  join_succeeds models
the outcome of the underlying songbird.join transport call.  The second
component of the result records whether songbird.join was invoked (the only
side effect of the function). -/
def join_voice (songbird_call : Option (Option Nat)) (channel_id : Nat)
    (join_succeeds : Bool) : Except JoinVoiceError VoiceHandle × Bool :=
  match songbird_call with
  | some (some current) =>
    if current = channel_id then (Except.ok VoiceHandle.existing, false)
    else (Except.error JoinVoiceError.Occupied, false)
  | some none =>
    if join_succeeds then (Except.ok VoiceHandle.fresh, true)
    else (Except.error JoinVoiceError.Join, true)
  | none =>
    if join_succeeds then (Except.ok VoiceHandle.fresh, true)
    else (Except.error JoinVoiceError.Join, true)

/-! ## src/music_commands.rs: interleaving model of two concurrent
join_voice calls for the same guild.

The body of join_voice suspends at the call-mutex acquisition and at the
songbird.join await; no lock is held from the songbird.get read to the
songbird.join call.  A task is therefore either before its songbird.get
check, past a check that fell through to the join (the bot was observed not
to be in a channel), or finished.  songbird.join gets-or-inserts the guild
call and connects it to the requested channel (modelled as the transport
succeeding). -/

/-- Program counter of one task executing join_voice.  In finished, result
is the value join_voice returns and joined records whether this task invoked
songbird.join. -/
inductive JoinPc
  | start
  | aboutToJoin
  | finished (result : Except JoinVoiceError VoiceHandle) (joined : Bool)
  deriving Repr

/-- Global state of the race: the songbird per-guild connection state and the
program counters of the two tasks. -/
structure RaceState where
  conn : Option (Option Nat)
  pc1 : JoinPc
  pc2 : JoinPc
  deriving Repr

/-- One atomic step of a single task requesting channel ch, mirroring the
branches of join_voice: the three-way check on the observed state, and the
deferred songbird.join call. -/
inductive taskStep (ch : Nat) :
    Option (Option Nat) → JoinPc → Option (Option Nat) → JoinPc → Prop
  | check_absent :
      taskStep ch none JoinPc.start none JoinPc.aboutToJoin
  | check_disconnected :
      taskStep ch (some none) JoinPc.start (some none) JoinPc.aboutToJoin
  | check_same :
      taskStep ch (some (some ch)) JoinPc.start (some (some ch))
        (JoinPc.finished (Except.ok VoiceHandle.existing) false)
  | check_other (c : Nat) (h : c ≠ ch) :
      taskStep ch (some (some c)) JoinPc.start (some (some c))
        (JoinPc.finished (Except.error JoinVoiceError.Occupied) false)
  | join_ok (s : Option (Option Nat)) :
      taskStep ch s JoinPc.aboutToJoin (some (some ch))
        (JoinPc.finished (Except.ok VoiceHandle.fresh) true)

/-- Interleaving of two join_voice tasks for the same guild, task 1
requesting ch1 and task 2 requesting ch2. -/
inductive raceStep (ch1 ch2 : Nat) : RaceState → RaceState → Prop
  | left {s s' : Option (Option Nat)} {p1 p1' p2 : JoinPc} :
      taskStep ch1 s p1 s' p1' →
      raceStep ch1 ch2 ⟨s, p1, p2⟩ ⟨s', p1', p2⟩
  | right {s s' : Option (Option Nat)} {p1 p2 p2' : JoinPc} :
      taskStep ch2 s p2 s' p2' →
      raceStep ch1 ch2 ⟨s, p1, p2⟩ ⟨s', p1, p2'⟩

/-! ## src/music_commands.rs: get_yt_id_from_url -/

/-- Models the scheme separator of url::Url::parse: splits the input at the
first occurrence of "://", returning the scheme characters and the rest. -/
def splitScheme : List Char → Option (List Char × List Char)
  | ':' :: '/' :: '/' :: rest => some ([], rest)
  | c :: rest => (splitScheme rest).map fun p => (c :: p.1, p.2)
  | [] => none

/-- Models the end of the host component: path, query, fragment or port. -/
def isHostEnd (c : Char) : Bool :=
  c == '/' || c == '?' || c == '#' || c == ':'

/-- Models the start of the path, query or fragment component. -/
def isPathStart (c : Char) : Bool :=
  c == '/' || c == '?' || c == '#'

/-- Models skipping a port after the host. -/
def afterAuthority : List Char → List Char
  | ':' :: rest => rest.dropWhile (fun c => !isPathStart c)
  | l => l

/-- Models url::Url::path on the characters after the authority: a URL with
an authority always has a path starting with a slash, empty paths
normalizing to a single slash; the query and fragment are not part of it. -/
def pathOf (l : List Char) : List Char :=
  match l with
  | '/' :: _ => l.takeWhile (fun c => !(c == '?' || c == '#'))
  | _ => ['/']

/-- Models extracting the raw query string (between the question mark and a
possible fragment) from the characters after the authority. -/
def queryOf (l : List Char) : List Char :=
  match l.dropWhile (fun c => !(c == '?' || c == '#')) with
  | '?' :: rest => rest.takeWhile (fun c => c != '#')
  | _ => []

/-- Splits a raw query string at ampersands. -/
def splitOnAmp : List Char → List (List Char)
  | [] => [[]]
  | '&' :: rest => [] :: splitOnAmp rest
  | c :: rest =>
    match splitOnAmp rest with
    | [] => [[c]]
    | p :: ps => (c :: p) :: ps

/-- Models one key-value pair of url::Url::query_pairs: the piece is split at
its first equals sign, a piece without one yielding an empty value. -/
def pairOfPiece (piece : List Char) : String × String :=
  (String.mk (piece.takeWhile (fun c => c != '=')),
   match piece.dropWhile (fun c => c != '=') with
   | '=' :: rest => String.mk rest
   | _ => "")

/-- The parsed URL shape observed by get_yt_id_from_url: the result of
url::Url::parse restricted to the accessors the function uses (domain, path,
query_pairs). -/
structure ParsedUrl where
  scheme : String
  domain : Option String
  path : String
  query : List (String × String)
  deriving DecidableEq, Repr

/-- Models url::Url::parse (the external url crate) for the subset of URL
shapes relevant to get_yt_id_from_url: a scheme, an optional lowercased host
(the domain), a path and a query pair list.  Percent decoding, userinfo and
host validation are out of scope of the claims. -/
def parseUrl (s : String) : Option ParsedUrl :=
  match splitScheme s.data with
  | none => none
  | some p =>
    if p.1 = [] then none
    else
      let host := p.2.takeWhile (fun c => !isHostEnd c)
      let afterHost := afterAuthority (p.2.dropWhile (fun c => !isHostEnd c))
      some
        { scheme := String.mk p.1
          domain := if host = [] then none else some (String.mk (host.map Char.toLower))
          path := String.mk (pathOf afterHost)
          query := ((splitOnAmp (queryOf afterHost)).filter (fun piece => piece ≠ [])).map pairOfPiece }

/-- Embeds the YtUrlIds struct of src/music_commands.rs. -/
structure YtUrlIds where
  video_id : Option String
  playlist_id : Option String
  deriving DecidableEq, Repr

/-- Models query_pairs().filter_map(...).next(): the value of the first query
pair whose key equals the given key. -/
def findQueryParam (key : String) : List (String × String) → Option String
  | [] => none
  | p :: rest => if p.1 == key then some p.2 else findQueryParam key rest

/-- Embeds the match of get_yt_id_from_url of src/music_commands.rs over the
result of Url::parse: a youtu.be domain takes the path after the leading
slash as video id, a domain ending in youtube.com reads the v and list query
parameters, everything else (including parse failures) yields neither id. -/
def get_yt_id_from_parsed : Option ParsedUrl → YtUrlIds
  | some u =>
    if u.domain.any fun d => d == "youtu.be" then
      { video_id := some (String.mk (u.path.data.drop 1)), playlist_id := none }
    else if u.domain.any fun d => List.isSuffixOf "youtube.com".data d.data then
      { video_id := findQueryParam "v" u.query
        playlist_id := findQueryParam "list" u.query }
    else { video_id := none, playlist_id := none }
  | none => { video_id := none, playlist_id := none }

/-- Embeds get_yt_id_from_url of src/music_commands.rs. -/
def get_yt_id_from_url (url : String) : YtUrlIds :=
  get_yt_id_from_parsed (parseUrl url)

/-! ## src/main.rs and src/music_commands.rs: command errors, skip and stop -/

/-- Embeds the CommandError enum of src/main.rs (payloads irrelevant to the
claims are dropped). -/
inductive CommandError
  | Serenity
  | JoinVoice (e : JoinVoiceError)
  | LeaveVoice
  | NotInGuild
  | SongbirdNotFound
  | UserNotInVoice
  | NotInCall
  | QueueEmpty
  deriving DecidableEq, Repr

/-- Embeds the queue handling of the skip command of src/music_commands.rs:
queue.current() is the head of the songbird track queue (modelled as a list
of tracks); when there is none the command fails with QueueEmpty before
touching the queue, otherwise queue.skip() stops the head track, advancing
the queue.  Returns the command result and the queue afterwards. -/
def skip_command (queue : List α) : Except CommandError Unit × List α :=
  match queue.head? with
  | none => (Except.error CommandError.QueueEmpty, queue)
  | some _ => (Except.ok (), queue.tail)

/-- Embeds the queue handling of the stop command of src/music_commands.rs:
an empty queue fails with QueueEmpty before queue.stop() is called, otherwise
queue.stop() clears the queue.  Returns the command result and the queue
afterwards. -/
def stop_command (queue : List α) : Except CommandError Unit × List α :=
  if queue.isEmpty then (Except.error CommandError.QueueEmpty, queue)
  else (Except.ok (), [])

/-! ## Claim theorems -/

/-- Claim C1: join_voice implements the three-way arbitration: with no
existing connection a join of the requested channel is attempted and the
fresh handle is returned on success; when the existing connection occupies
the requested channel the existing handle is returned with no join attempt;
when it occupies a different channel the call fails with Occupied and
performs no join (no side effects). -/
theorem join_voice_three_way (st : Option (Option Nat)) (ch : Nat) (ok : Bool) :
    (st = none → (join_voice st ch ok).2 = true
      ∧ (ok = true → (join_voice st ch ok).1 = Except.ok VoiceHandle.fresh))
    ∧ (st = some (some ch) → join_voice st ch ok = (Except.ok VoiceHandle.existing, false))
    ∧ (∀ c, st = some (some c) → c ≠ ch →
      join_voice st ch ok = (Except.error JoinVoiceError.Occupied, false)) := by
  refine ⟨?_, ?_, ?_⟩
  · rintro rfl
    cases ok <;> simp [join_voice]
  · rintro rfl
    simp [join_voice]
  · rintro c rfl hne
    simp [join_voice, hne]

/-- Witness for join_voice_three_way at concrete inputs. -/
theorem join_voice_three_way_witness :
    (join_voice none 5 true).2 = true
    ∧ join_voice (some (some 5)) 5 true = (Except.ok VoiceHandle.existing, false)
    ∧ join_voice (some (some 4)) 5 true = (Except.error JoinVoiceError.Occupied, false) :=
  ⟨((join_voice_three_way none 5 true).1 rfl).1,
   (join_voice_three_way (some (some 5)) 5 true).2.1 rfl,
   (join_voice_three_way (some (some 4)) 5 true).2.2 4 rfl (by decide)⟩

/-- Claim C2 (refuted by the code): the three-way branch of join_voice is
not evaluated atomically.  From a guild with no connection, task 1 requesting
channel 1 and task 2 requesting channel 2 can both pass the songbird.get
check observing no existing connection and both invoke songbird.join
successfully: a state where both tasks finished with a successful join
(joined flag true, Ok result, no Occupied) is reachable. -/
theorem join_voice_check_then_join_race :
    Relation.ReflTransGen (raceStep 1 2)
      { conn := none, pc1 := JoinPc.start, pc2 := JoinPc.start }
      { conn := some (some 2),
        pc1 := JoinPc.finished (Except.ok VoiceHandle.fresh) true,
        pc2 := JoinPc.finished (Except.ok VoiceHandle.fresh) true } := by
  have h1 : raceStep 1 2
      { conn := none, pc1 := JoinPc.start, pc2 := JoinPc.start }
      { conn := none, pc1 := JoinPc.aboutToJoin, pc2 := JoinPc.start } :=
    raceStep.left taskStep.check_absent
  have h2 : raceStep 1 2
      { conn := none, pc1 := JoinPc.aboutToJoin, pc2 := JoinPc.start }
      { conn := none, pc1 := JoinPc.aboutToJoin, pc2 := JoinPc.aboutToJoin } :=
    raceStep.right taskStep.check_absent
  have h3 : raceStep 1 2
      { conn := none, pc1 := JoinPc.aboutToJoin, pc2 := JoinPc.aboutToJoin }
      { conn := some (some 1),
        pc1 := JoinPc.finished (Except.ok VoiceHandle.fresh) true,
        pc2 := JoinPc.aboutToJoin } :=
    raceStep.left (taskStep.join_ok none)
  have h4 : raceStep 1 2
      { conn := some (some 1),
        pc1 := JoinPc.finished (Except.ok VoiceHandle.fresh) true,
        pc2 := JoinPc.aboutToJoin }
      { conn := some (some 2),
        pc1 := JoinPc.finished (Except.ok VoiceHandle.fresh) true,
        pc2 := JoinPc.finished (Except.ok VoiceHandle.fresh) true } :=
    raceStep.right (taskStep.join_ok (some (some 1)))
  exact Relation.ReflTransGen.head h1 (Relation.ReflTransGen.head h2
    (Relation.ReflTransGen.head h3 (Relation.ReflTransGen.single h4)))

/-- Claim C3: after mark_exhausted on day D, is_ratelimited returns true on
every call made on day D (the state is unchanged, so repeated same-day calls
keep returning true); the first call on any later day Dnext clears the
marker and returns false; with no marker present the call returns false and
leaves the state unchanged. -/
theorem rate_limit_tracker_cycle (c : YtApiClient) (D Dnext : Int) (h : D < Dnext) :
    (c.mark_exhausted D).is_ratelimited D = (true, c.mark_exhausted D)
    ∧ (c.mark_exhausted D).is_ratelimited Dnext = (false, { c with rate_limited_day := none })
    ∧ (∀ c0 : YtApiClient, c0.rate_limited_day = none →
        c0.is_ratelimited D = (false, c0)) := by
  refine ⟨?_, ?_, ?_⟩
  · simp [YtApiClient.mark_exhausted, YtApiClient.is_ratelimited]
  · simp [YtApiClient.mark_exhausted, YtApiClient.is_ratelimited, h]
  · intro c0 h0
    simp [YtApiClient.is_ratelimited, h0]

/-- Witness for rate_limit_tracker_cycle at concrete inputs. -/
theorem rate_limit_tracker_cycle_witness :
    ((YtApiClient.new "k").mark_exhausted 0).is_ratelimited 0 =
      (true, (YtApiClient.new "k").mark_exhausted 0)
    ∧ ((YtApiClient.new "k").mark_exhausted 0).is_ratelimited 1 =
      (false, { yt_api_key := "k", rate_limited_day := none })
    ∧ (YtApiClient.new "k").is_ratelimited 0 = (false, YtApiClient.new "k") :=
  ⟨(rate_limit_tracker_cycle (YtApiClient.new "k") 0 1 (by decide)).1,
   (rate_limit_tracker_cycle (YtApiClient.new "k") 0 1 (by decide)).2.1,
   (rate_limit_tracker_cycle (YtApiClient.new "k") 0 1 (by decide)).2.2
     (YtApiClient.new "k") rfl⟩

/-- Claim C4: when the inner client reports rate-limit exhaustion at call
time, search, get_video and get_playlist each fail immediately with
QuotaExceeded and the upstream HTTP oracle is never invoked (the Bool
request-issued flag is false). -/
theorem quota_exhausted_fails_fast (cl : YoutubeClient) (c : YtApiClient) (today : Int)
    (hc : cl.yt_api_client = some c) (hlim : (c.is_ratelimited today).1 = true) :
    (∀ f, cl.search today f =
      (false, Except.error YtApiError.QuotaExceeded,
        { yt_api_client := some (c.is_ratelimited today).2 }))
    ∧ (∀ f, cl.get_video today f =
      (false, Except.error YtApiError.QuotaExceeded,
        { yt_api_client := some (c.is_ratelimited today).2 }))
    ∧ (∀ f, cl.get_playlist today f =
      (false, Except.error YtApiError.QuotaExceeded,
        { yt_api_client := some (c.is_ratelimited today).2 })) := by
  refine ⟨?_, ?_, ?_⟩ <;> intro f <;>
    simp [YoutubeClient.search, YoutubeClient.get_video, YoutubeClient.get_playlist, hc, hlim]

/-- Witness for quota_exhausted_fails_fast at concrete inputs. -/
theorem quota_exhausted_fails_fast_witness :
    ({ yt_api_client := some { yt_api_key := "k", rate_limited_day := some 3 } } :
        YoutubeClient).search 3 (fun c => (Except.error YtApiError.Api, c)) =
      (false, Except.error YtApiError.QuotaExceeded,
        { yt_api_client := some { yt_api_key := "k", rate_limited_day := some 3 } }) :=
  (quota_exhausted_fails_fast
    { yt_api_client := some { yt_api_key := "k", rate_limited_day := some 3 } }
    { yt_api_key := "k", rate_limited_day := some 3 } 3 rfl rfl).1
    (fun c => (Except.error YtApiError.Api, c))

/-- Claim C5: process_api_response dispatches on the HTTP status: 403 sets
the rate-limit marker to today and fails with QuotaExceeded; any other
non-success status fails with the generic Api error leaving the state
unchanged; a 200 response yields the deserialized payload, which get_video
maps into the internal YtVideo model. -/
theorem api_response_status_dispatch {α : Type} (c : YtApiClient) (today : Int)
    (response : HttpResponse α) :
    (response.status = 403 →
      c.process_api_response today response =
        (Except.error YtApiError.QuotaExceeded, c.mark_exhausted today))
    ∧ (response.status ≠ 200 → response.status ≠ 403 →
      c.process_api_response today response = (Except.error YtApiError.Api, c))
    ∧ (∀ v, response.status = 200 → response.parsed = some v →
      c.process_api_response today response = (Except.ok v, c))
    ∧ (∀ (resp2 : HttpResponse (models.YtList models.YtVideo)) list item rest,
        resp2.status = 200 → resp2.parsed = some list → list.items = item :: rest →
        c.get_video_process today resp2 = (Except.ok (YtVideo.from_models item), c)) := by
  refine ⟨?_, ?_, ?_, ?_⟩
  · intro h403
    simp [YtApiClient.process_api_response, h403]
  · intro h200 h403
    simp [YtApiClient.process_api_response, h200, h403]
  · intro v h200 hparsed
    simp [YtApiClient.process_api_response, h200, hparsed]
  · intro resp2 list item rest h200 hparsed hitems
    simp [YtApiClient.get_video_process, YtApiClient.process_api_response, h200, hparsed,
      hitems, Except.bind]

/-- Witness for api_response_status_dispatch at concrete inputs. -/
theorem api_response_status_dispatch_witness :
    (YtApiClient.new "k").process_api_response 7
        ({ status := 403, parsed := none } : HttpResponse Unit) =
      (Except.error YtApiError.QuotaExceeded,
        { yt_api_key := "k", rate_limited_day := some 7 }) :=
  (api_response_status_dispatch (YtApiClient.new "k") 7
    { status := 403, parsed := none }).1 rfl

/-- Claim C6: the URL id extraction of get_yt_id_from_url (a pure function of
the input string): the short link yields the video id AbC123 and no playlist
id, the long link yields video id AbC123 and playlist id PL1, and any URL
whose parsed domain is neither youtu.be nor a youtube.com-suffixed domain
yields neither id. -/
theorem url_id_extraction :
    get_yt_id_from_url "https://youtu.be/AbC123" =
      { video_id := some "AbC123", playlist_id := none }
    ∧ get_yt_id_from_url "https://www.youtube.com/watch?v=AbC123&list=PL1" =
      { video_id := some "AbC123", playlist_id := some "PL1" }
    ∧ ∀ url u, parseUrl url = some u →
        (∀ d, u.domain = some d →
          d ≠ "youtu.be" ∧ List.isSuffixOf "youtube.com".data d.data = false) →
        get_yt_id_from_url url = { video_id := none, playlist_id := none } := by
  refine ⟨by decide, by decide, ?_⟩
  intro url u hparse hdom
  unfold get_yt_id_from_url
  rw [hparse]
  unfold get_yt_id_from_parsed
  cases hd : u.domain with
  | none => simp [hd]
  | some d =>
    obtain ⟨hne, hsuf⟩ := hdom d hd
    simp [hd, hne, hsuf]

/-- Witness for url_id_extraction at a concrete non-YouTube URL. -/
theorem url_id_extraction_witness :
    get_yt_id_from_url "https://example.com/watch?v=AbC123" =
      { video_id := none, playlist_id := none } :=
  url_id_extraction.2.2 "https://example.com/watch?v=AbC123"
    { scheme := "https", domain := some "example.com", path := "/watch",
      query := [("v", "AbC123")] }
    (by decide)
    (by
      intro d hd
      obtain rfl : d = "example.com" := (Option.some.inj hd).symm
      exact ⟨by decide, by decide⟩)

/-- Claim C7 (code bug): serializing a duration of 1 hour 2 minutes
3 seconds (3723 seconds) does not produce "PT1H2M3S": the code appends the
format string "H{}" (and "M{}", "S{}") so each unit letter precedes its
digits, producing "PTH1M2S3". -/
theorem iso_duration_serialize_letter_first :
    iso_duration_serialize 3723 = "PTH1M2S3"
    ∧ iso_duration_serialize 3723 ≠ "PT1H2M3S" :=
  ⟨by decide, by decide⟩

/-- Claim C8: parsing "PT1H2M3S" yields exactly 3723 seconds and parsing
"PT0S" yields 0 seconds. -/
theorem iso_duration_parse_values :
    visit_str "PT1H2M3S" = Except.ok 3723 ∧ visit_str "PT0S" = Except.ok 0 :=
  ⟨rfl, rfl⟩

/-- Claim C9: on an empty playback queue, the skip command fails with
QueueEmpty leaving the queue unchanged, and the stop command fails with
QueueEmpty (an error, not a no-op) leaving the queue unchanged. -/
theorem empty_queue_skip_stop (α : Type) :
    skip_command ([] : List α) = (Except.error CommandError.QueueEmpty, [])
    ∧ stop_command ([] : List α) = (Except.error CommandError.QueueEmpty, []) :=
  ⟨rfl, rfl⟩

/-- Claim C10: a YoutubeClient constructed without an API key has no inner
client, and every call to search, get_video and get_playlist fails with
QuotaExceeded without invoking the upstream HTTP oracle (request-issued flag
false): there is no anonymous fallback resolution path. -/
theorem no_api_key_always_quota_exceeded :
    (YoutubeClient.new none).yt_api_client = none
    ∧ (∀ (today : Int) f, (YoutubeClient.new none).search today f =
        (false, Except.error YtApiError.QuotaExceeded, YoutubeClient.new none))
    ∧ (∀ (today : Int) f, (YoutubeClient.new none).get_video today f =
        (false, Except.error YtApiError.QuotaExceeded, YoutubeClient.new none))
    ∧ (∀ (today : Int) f, (YoutubeClient.new none).get_playlist today f =
        (false, Except.error YtApiError.QuotaExceeded, YoutubeClient.new none)) :=
  ⟨rfl, fun _ _ => rfl, fun _ _ => rfl, fun _ _ => rfl⟩

end Gerbot
